import Mathlib

/-!
Verification of the AfterScan frame pipeline against its specification.

This file shallowly embeds the parts of the AfterScan sources
(AfterScan.py, template_manager.py) that the checked claims are about:
the image primitives (NumPy slicing, `even_image`, `crop_image`), the
template registry (`Template.create` / `Template.refresh`), template
matching (`match_template`, `validate_template_size`), stabilization
(`stabilize_image`), the per-frame generation loop
(`frame_generation_loop`), the video-generation preconditions
(`valid_generated_frame_range`, the `Pending` arm of
`video_generation_loop`), the batch exit logic (`generation_exit`) and
the job queue runner (`job_processing_loop`).

External OpenCV collaborators (cv2.matchTemplate correlation surfaces,
cv2.warpAffine rotation resampling, cv2.imread) are modelled as explicit
function or `Option` parameters: the embedding keeps the dimensions and
control flow that the Python code itself computes, and abstracts only
the pixel resampling that the library performs.  Machine floats used by
the code (`width / 2028`, `expected * width / 100`) are modelled over ℚ;
every concrete input used in a witness or counterexample is chosen so
that the float and rational computations agree exactly.
-/

namespace AfterScan

/-- Python `round` on a rational value: round half to even, as Python 3
`round` behaves on floats whose value is an exact rational tie. -/
def pyRound (q : ℚ) : ℤ :=
  let f := Rat.floor q
  let frac := q - (f : ℚ)
  if frac < 1/2 then f
  else if 1/2 < frac then f + 1
  else if f % 2 = 0 then f else f + 1

/-- Python `int()` applied to a nonnegative-or-negative rational:
truncation toward zero. -/
def pyInt (q : ℚ) : ℤ :=
  if 0 ≤ q then Rat.floor q else -(Rat.floor (-q))

/-- A raster image: dimensions plus a total pixel function.  Pixel values
outside the `width × height` domain are irrelevant to every claim. -/
structure Image where
  width : ℕ
  height : ℕ
  pixel : ℕ → ℕ → ℕ

/-- Python slice-index normalization for a sequence of length `n`:
a negative index counts from the end (clamped at 0), a nonnegative index
is clamped at `n`. -/
def sliceIdx (n : ℕ) (i : ℤ) : ℕ :=
  if i < 0 then ((n : ℤ) + i).toNat else min i.toNat n

/-- NumPy two-dimensional slicing `img[y0:y1, x0:x1]`: the sub-image
between the normalized bounds, whose pixel `(x, y)` is the source pixel
`(x + x0', y + y0')`. -/
def npSubImage (img : Image) (y0 y1 x0 x1 : ℤ) : Image :=
  let ys := sliceIdx img.height y0
  let ye := sliceIdx img.height y1
  let xs := sliceIdx img.width x0
  let xe := sliceIdx img.width x1
  ⟨xe - xs, ye - ys, fun x y => img.pixel (x + xs) (y + ys)⟩

/-- Embedding of `even_image` (AfterScan.py lines 1847-1864): decrement an
odd width or height by one, unless both adjusted ends are zero, in which
case the input is returned unchanged. -/
def even_image (img : Image) : Image :=
  let width := img.width
  let height := img.height
  let X_end := if width % 2 = 1 then width - 1 else width
  let Y_end := if height % 2 = 1 then height - 1 else height
  if X_end ≠ 0 ∨ Y_end ≠ 0 then
    npSubImage img 0 (Y_end : ℤ) 0 (X_end : ℤ)
  else
    img

/-- Embedding of `crop_image` (AfterScan.py lines 1867-1884): clamp the
bottom-right corner to the frame, then decrement the end coordinate of
any axis whose resulting extent is odd.  `%` on ℤ agrees with Python `%`
for a positive modulus. -/
def crop_image (img : Image) (top_left botton_right : ℤ × ℤ) : Image :=
  let width : ℤ := img.width
  let height : ℤ := img.height
  let Y_start := top_left.2
  let Y_end := min botton_right.2 height
  let X_start := top_left.1
  let X_end := min botton_right.1 width
  let X_end := if (X_end - X_start) % 2 = 1 then X_end - 1 else X_end
  let Y_end := if (Y_end - Y_start) % 2 = 1 then Y_end - 1 else Y_end
  npSubImage img Y_start Y_end X_start X_end

/-- A crop rectangle is valid for an image when its corners are ordered
and its top-left corner lies inside the frame. -/
def ValidRect (img : Image) (tl br : ℤ × ℤ) : Prop :=
  0 ≤ tl.1 ∧ 0 ≤ tl.2 ∧ tl.1 ≤ br.1 ∧ tl.2 ≤ br.2 ∧
    tl.1 ≤ (img.width : ℤ) ∧ tl.2 ≤ (img.height : ℤ)

instance (img : Image) (tl br : ℤ × ℤ) : Decidable (ValidRect img tl br) := by
  unfold ValidRect; infer_instance

/-- Embedding of the `Template` dataclass of template_manager.py.  The
cv2-derived statistics that no claim mentions (`scaled_template` pixels,
`white_pixel_count`, `wb_proportion`) are omitted; `template` is the
grayscale reference image loaded by cv2.imread, `none` when the backing
file was absent. -/
structure Template where
  name : String
  filename : String
  type : String
  position : ℤ × ℤ
  scale : ℚ
  size : ℤ × ℤ
  scaled_position : ℤ × ℤ
  scaled_size : ℤ × ℤ
  template : Option Image

/-- The block of `Template.refresh` / `Template.create` that recomputes
every scale-derived field from a loaded image and a new scale, with
Python `int()` truncation. -/
def Template.applyScale (t : Template) (img : Image) (new_scale : ℚ) : Template :=
  { t with
    template := some img
    scale := new_scale
    size := ((img.width : ℤ), (img.height : ℤ))
    scaled_size := (pyInt ((img.width : ℚ) * new_scale), pyInt ((img.height : ℚ) * new_scale))
    scaled_position := (pyInt ((t.position.1 : ℚ) * new_scale), pyInt ((t.position.2 : ℚ) * new_scale)) }

/-- Embedding of `Template.create` (template_manager.py lines 58-96):
`loaded` is the result of cv2.imread when the file exists, `none`
otherwise; when the file is missing the template keeps zero-valued
derived fields. -/
def Template.create (name filename type : String) (position : ℤ × ℤ)
    (width : ℤ) (loaded : Option Image) : Template :=
  let scale : ℚ := if type = "custom" then 1 else (width : ℚ) / 2028
  let instance_ : Template :=
    ⟨name, filename, type, position, scale, (0, 0), (0, 0), (0, 0), none⟩
  match loaded with
  | none => instance_
  | some img => instance_.applyScale img scale

/-- Embedding of `Template.refresh` (template_manager.py lines 101-121):
`reload` is the result of the cv2.imread reload attempt performed when
the template image is missing; when both the stored image and the reload
are absent the method returns with no field updated. -/
def Template.refresh (t : Template) (width : ℤ) (reload : Option Image) : Template :=
  let new_scale : ℚ := if t.type = "custom" then 1 else (width : ℚ) / 2028
  match t.template with
  | some img => t.applyScale img new_scale
  | none =>
    match reload with
    | some img => t.applyScale img new_scale
    | none => t

/-- Embedding of cv2.minMaxLoc restricted to what `match_template` uses:
the `(x, y)` location of the first maximum of the correlation surface in
row-major scan order, over a `rows × cols` result array. -/
def minMaxLoc_max (res : ℕ → ℕ → ℚ) (rows cols : ℕ) : ℕ × ℕ :=
  let positions := (List.range rows).flatMap (fun y => (List.range cols).map (fun x => (x, y)))
  match positions with
  | [] => (0, 0)
  | p :: ps => ps.foldl (fun best q => if res best.2 best.1 < res q.2 q.1 then q else best) p

/-- Embedding of `match_template` (AfterScan.py lines 1653-1680).
`cv2match img template` is the TM_CCOEFF_NORMED correlation surface that
cv2.matchTemplate computes on the blurred grayscale of `img` — an
external library computation, abstracted as a parameter; the result
array over which cv2.minMaxLoc runs has
`(img.height - h + 1) × (img.width - w + 1)` entries.  The `thres`
argument is accepted and unused, exactly as in the source. -/
def match_template (cv2match : Image → Image → ℕ → ℕ → ℚ)
    (template img : Image) (_thres : ℚ) : ℕ × ℕ :=
  let w := template.width
  let h := template.height
  if w ≥ img.width ∨ h ≥ img.height then (0, 0)
  else minMaxLoc_max (cv2match img template) (img.height - h + 1) (img.width - w + 1)

/-- Embedding of `validate_template_size` (AfterScan.py lines 1636-1650):
compares the template dimensions against the hole-search area extents. -/
def validate_template_size (film_hole_template : Image)
    (holeSearchTopLeft holeSearchBottomRight : ℤ × ℤ) : Bool :=
  let template_width : ℤ := film_hole_template.width
  let template_height : ℤ := film_hole_template.height
  let image_width := holeSearchBottomRight.1 - holeSearchTopLeft.1
  let image_height := holeSearchBottomRight.2 - holeSearchTopLeft.2
  if template_width ≥ image_width ∨ template_height ≥ image_height then false else true

/-- Embedding of `get_image_left_stripe` (AfterScan.py lines 1745-1754):
`img[v0:v1, h0:h1]` for the configured hole-search rectangle. -/
def get_image_left_stripe (img : Image) (holeSearchTopLeft holeSearchBottomRight : ℤ × ℤ) : Image :=
  npSubImage img holeSearchTopLeft.2 holeSearchBottomRight.2
    holeSearchTopLeft.1 holeSearchBottomRight.1

/-- Embedding of the cv2.warpAffine translation used by `stabilize_image`:
same output dimensions as the input, pixels shifted by `(move_x, move_y)`
with background fill (0) for uncovered areas. -/
def translate_image (img : Image) (move_x move_y : ℤ) : Image :=
  ⟨img.width, img.height, fun x y =>
    let sx := (x : ℤ) - move_x
    let sy := (y : ℤ) - move_y
    if 0 ≤ sx ∧ sx < (img.width : ℤ) ∧ 0 ≤ sy ∧ sy < (img.height : ℤ) then
      img.pixel sx.toNat sy.toNat
    else 0⟩

/-- Alignment result produced by `stabilize_image`: the translated frame
plus the quantities the source computes and logs for the frame. -/
structure StabilizeResult where
  image : Image
  matched : ℤ × ℤ
  move_x : ℤ
  move_y : ℤ
  missing_top : ℤ
  missing_bottom : ℤ
  alertLogged : Bool
  missingRowsLogged : ℤ

/-- Embedding of `stabilize_image` (AfterScan.py lines 1768-1844).  The
matched position is the `match_template` result on the left stripe
translated by `HoleSearchTopLeft` into frame-absolute coordinates; the
shift is `expected - matched` for a custom template and
`round(expected% * dimension) - matched` for the default templates; the
overflow estimates are compared against the active crop rectangle, and a
FrameAlignTag-2 warning is logged when either is negative while the
convert loop is running. -/
def stabilize_image (cv2match : Image → Image → ℕ → ℕ → ℚ)
    (CustomTemplateDefined : Bool) (expected_pattern_pos : ℤ × ℤ)
    (HoleSearchTopLeft HoleSearchBottomRight CropTopLeft CropBottomRight : ℤ × ℤ)
    (film_hole_template : Image) (StabilizationThreshold : ℚ)
    (ConvertLoopRunning : Bool) (img : Image) : StabilizeResult :=
  let width := img.width
  let height := img.height
  let left_stripe_image := get_image_left_stripe img HoleSearchTopLeft HoleSearchBottomRight
  let tl0 := match_template cv2match film_hole_template left_stripe_image StabilizationThreshold
  let top_left : ℤ × ℤ := ((tl0.1 : ℤ) + HoleSearchTopLeft.1, (tl0.2 : ℤ) + HoleSearchTopLeft.2)
  let move_x :=
    if CustomTemplateDefined then expected_pattern_pos.1 - top_left.1
    else pyRound ((expected_pattern_pos.1 : ℚ) * (width : ℚ) / 100) - top_left.1
  let move_y :=
    if CustomTemplateDefined then expected_pattern_pos.2 - top_left.2
    else pyRound ((expected_pattern_pos.2 : ℚ) * (height : ℚ) / 100) - top_left.2
  let missing_bottom := (height : ℤ) - CropBottomRight.2 + move_y
  let missing_top := CropTopLeft.2 - move_y
  let alert := ConvertLoopRunning && (decide (missing_bottom < 0) || decide (missing_top < 0))
  let missing_rows := if missing_top < 0 then missing_top else -missing_bottom
  ⟨translate_image img move_x move_y, top_left, move_x, move_y,
    missing_top, missing_bottom, alert, missing_rows⟩

/-- Outcome record of `determine_hole_height`: the (possibly changed)
film type, the returned hole height, whether the wrong-film-type dialog
was shown, and whether the film type / active template were changed
(the code changes them only via the confirmed dialog branch, which also
calls `set_film_type`). -/
structure HoleHeightResult where
  filmType : String
  holeHeight : ℤ
  promptShown : Bool
  filmTypeChanged : Bool
  deriving DecidableEq, Repr

/-- Embedding of `determine_hole_height` (AfterScan.py lines 1563-1591):
matches both reference patterns on the left stripe; when the nominally
inactive pattern matches higher up, a confirmation dialog is shown —
but only when no batch job is running — and the film type is switched
(with the match results swapped) only when the user confirms. -/
def determine_hole_height (cv2match : Image → Image → ℕ → ℕ → ℚ)
    (filmType : String) (BatchJobRunning userConfirms : Bool)
    (film_bw_template film_wb_template : Image)
    (HoleSearchTopLeft HoleSearchBottomRight : ℤ × ℤ) (img : Image) : HoleHeightResult :=
  let tpl :=
    if filmType = "R8" then (film_wb_template, film_bw_template, "S8")
    else (film_bw_template, film_wb_template, "R8")
  let search_img := get_image_left_stripe img HoleSearchTopLeft HoleSearchBottomRight
  let top_left_1 := match_template cv2match tpl.1 search_img 230
  let top_left_2 := match_template cv2match tpl.2.1 search_img 230
  if top_left_2.2 < top_left_1.2 then
    if !BatchJobRunning then
      if userConfirms then
        ⟨tpl.2.2, (top_left_1.2 : ℤ) - (top_left_2.2 : ℤ), true, true⟩
      else
        ⟨filmType, (top_left_2.2 : ℤ) - (top_left_1.2 : ℤ), true, false⟩
    else
      ⟨filmType, (top_left_2.2 : ℤ) - (top_left_1.2 : ℤ), false, false⟩
  else
    ⟨filmType, (top_left_2.2 : ℤ) - (top_left_1.2 : ℤ), false, false⟩

/-- A queued job: its `done` flag plus an abstract payload standing for
the immutable configuration snapshot and label. -/
structure Job where
  payload : ℕ
  done : Bool
  deriving DecidableEq, Repr

/-- Marks the job at the given queue index as done, as
`job_list[CurrentJobEntry]['done'] = True` does. -/
def setDone : List Job → ℕ → List Job
  | [], _ => []
  | j :: rest, 0 => ⟨j.payload, true⟩ :: rest
  | j :: rest, n + 1 => j :: setDone rest n

/-- The batch-level globals mutated by `generation_exit` and
`job_processing_loop`. -/
structure BatchState where
  convertLoopRunning : Bool
  convertLoopExitRequested : Bool
  batchJobRunning : Bool
  currentJobEntry : Option ℕ
  jobs : List Job
  scheduledJobLoop : Bool
  deriving DecidableEq, Repr

/-- Embedding of `generation_exit` (AfterScan.py lines 2123-2151): clear
the running flag; in batch mode either stop the whole batch (when an
exit was requested or there is no current job) or mark the current job
done and schedule the next `job_processing_loop` pass; finally reset the
exit-request flag. -/
def generation_exit (bs : BatchState) : BatchState :=
  let bs1 : BatchState := { bs with convertLoopRunning := false }
  let bs2 : BatchState :=
    if bs1.batchJobRunning then
      if bs1.convertLoopExitRequested ∨ bs1.currentJobEntry = none then
        { bs1 with batchJobRunning := false }
      else
        match bs1.currentJobEntry with
        | some i => { bs1 with jobs := setDone bs1.jobs i, scheduledJobLoop := true }
        | none => bs1
    else bs1
  { bs2 with convertLoopExitRequested := false }

/-- Index of the first job whose `done` flag is false, in queue
(insertion) order — the job `job_processing_loop` selects. -/
def findFirstNotDone : List Job → Option ℕ
  | [] => none
  | j :: rest =>
    if j.done then (findFirstNotDone rest).map (· + 1) else some 0

/-- Indices of all not-done jobs, in queue order. -/
def pendingIndices : List Job → List ℕ
  | [] => []
  | j :: rest =>
    if j.done then (pendingIndices rest).map (· + 1)
    else 0 :: (pendingIndices rest).map (· + 1)

/-- Embedding of `job_processing_loop` (AfterScan.py lines 776-812)
chained with a normally completing run per selected job: each pass scans
the queue from the start, skips done entries, selects the first not-done
job, runs it to completion (the run body is abstracted; it ends in
`generation_exit`, which marks the job done and schedules the next
pass), and accumulates the order in which jobs were processed.  When no
not-done job remains it records `CurrentJobEntry = -1` and performs the
final `generation_exit`. -/
def job_processing_loop : ℕ → BatchState → List ℕ → BatchState × List ℕ
  | 0, bs, log => (bs, log)
  | fuel + 1, bs, log =>
    match findFirstNotDone bs.jobs with
    | some i =>
      let bs' := generation_exit
        { bs with currentJobEntry := some i, convertLoopRunning := true }
      job_processing_loop fuel bs' (log ++ [i])
    | none =>
      (generation_exit { bs with currentJobEntry := none }, log)

/-- Status-label messages the pipeline and video loops write to
`app_status_label`, in emission order. -/
inductive StatusMsg
  | frameGenerationOK
  | cancelledByUser
  | oddSize (frame : ℤ)
  | generatingFrames (frame : ℤ)
  | noFramesToEncode
  | framesMissing
  deriving DecidableEq, Repr

/-- Environment of a frame-generation run: the configuration snapshot
and collaborator inputs that `frame_generation_loop` reads but never
writes.  `sourceFrames` is the cv2.imread result per sequence index
(`none` for a decode failure); `cv2rotate` abstracts the warpAffine
resampling content of `rotate_image`, whose output dimensions the code
fixes to the input dimensions. -/
structure GenEnv where
  startFrame : ℤ
  framesToEncode : ℤ
  firstAbsoluteFrame : ℤ
  sourceFrames : ℤ → Option Image
  targetDirExists : Bool
  performRotation : Bool
  performStabilization : Bool
  performCropping : Bool
  generateVideo : Bool
  cv2rotate : Image → ℕ → ℕ → ℕ
  cv2match : Image → Image → ℕ → ℕ → ℚ
  customTemplateDefined : Bool
  expectedPatternPos : ℤ × ℤ
  holeSearchTopLeft : ℤ × ℤ
  holeSearchBottomRight : ℤ × ℤ
  filmHoleTemplate : Image
  stabilizationThreshold : ℚ
  cropTopLeft : ℤ × ℤ
  cropBottomRight : ℤ × ℤ

/-- Embedding of `rotate_image` (AfterScan.py lines 1757-1766): the
warpAffine call passes `dsize = (w, h)`, so the output dimensions equal
the input dimensions; the resampled content is the external
collaborator `cv2rotate`. -/
def rotate_image (e : GenEnv) (img : Image) : Image :=
  ⟨img.width, img.height, e.cv2rotate img⟩

/-- The transform chain the loop applies to one decoded frame:
rotate, then stabilize, then crop-or-even, each under its flag.  Returns
the written image and the stabilization result when stabilization ran.
Inside the loop `ConvertLoopRunning` is true (set by `start_convert`
before the loop is scheduled). -/
def process_frame (e : GenEnv) (img0 : Image) : Image × Option StabilizeResult :=
  let img1 := if e.performRotation then rotate_image e img0 else img0
  let stab :=
    if e.performStabilization then
      some (stabilize_image e.cv2match e.customTemplateDefined e.expectedPatternPos
        e.holeSearchTopLeft e.holeSearchBottomRight e.cropTopLeft e.cropBottomRight
        e.filmHoleTemplate e.stabilizationThreshold true img1)
    else none
  let img2 := match stab with | some r => r.image | none => img1
  let img3 :=
    if e.performCropping then crop_image img2 e.cropTopLeft e.cropBottomRight
    else even_image img2
  (img3, stab)

/-- Phase of the cooperative loop: still scheduling itself, handed over
to the video loop, or exited via `generation_exit`. -/
inductive GenPhase
  | running
  | videoPending
  | exited
  deriving DecidableEq, Repr

/-- Mutable state of a frame-generation run: the per-frame counter, the
emitted status labels, the absolute numbers of the frame files written,
the frames for which a FrameAlignTag-2 alert was logged, the loop phase
and the batch-level globals. -/
structure GenState where
  currentFrame : ℤ
  statusLog : List StatusMsg
  written : List ℤ
  alerts : List ℤ
  phase : GenPhase
  batch : BatchState

/-- Embedding of one `frame_generation_loop` invocation (AfterScan.py
lines 2169-2242).  Termination branch: report the frame-generation-OK
status, hand over to the video loop or run `generation_exit`, and
decrement the frame counter.  Cancellation branch: report and exit.
Otherwise: decode (skipping unreadable frames), apply the transform
chain, log the out-of-bounds alert that `stabilize_image` raised, on an
odd output dimension report the odd-size status and clamp the counter to
the last frame of the range, write the frame (under the possibly clamped
number) when the target directory exists, report progress, and advance
the counter. -/
def frame_generation_step (e : GenEnv) (s : GenState) : GenState :=
  if e.startFrame + e.framesToEncode ≤ s.currentFrame then
    let s1 : GenState := { s with statusLog := s.statusLog ++ [.frameGenerationOK] }
    let s2 : GenState :=
      if e.generateVideo then { s1 with phase := .videoPending }
      else { s1 with phase := .exited, batch := generation_exit s1.batch }
    { s2 with currentFrame := s2.currentFrame - 1 }
  else if s.batch.convertLoopExitRequested then
    { s with statusLog := s.statusLog ++ [.cancelledByUser], phase := .exited,
             batch := generation_exit s.batch }
  else
    match e.sourceFrames s.currentFrame with
    | none => { s with currentFrame := s.currentFrame + 1 }
    | some img0 =>
      let pr := process_frame e img0
      let alerts :=
        match pr.2 with
        | some r => if r.alertLogged then s.alerts ++ [s.currentFrame] else s.alerts
        | none => s.alerts
      let odd := pr.1.width % 2 = 1 ∨ pr.1.height % 2 = 1
      let statusLog1 :=
        if odd then s.statusLog ++ [.oddSize s.currentFrame] else s.statusLog
      let cf1 := if odd then e.startFrame + e.framesToEncode - 1 else s.currentFrame
      let written :=
        if e.targetDirExists then s.written ++ [e.firstAbsoluteFrame + cf1] else s.written
      let statusLog2 := statusLog1 ++ [.generatingFrames cf1]
      { s with currentFrame := cf1 + 1, statusLog := statusLog2,
               written := written, alerts := alerts }

/-- Runs the cooperative loop for at most `fuel` scheduling ticks,
stopping as soon as the run leaves the `running` phase. -/
def run_frame_generation : ℕ → GenEnv → GenState → GenState
  | 0, _, s => s
  | fuel + 1, e, s =>
    if s.phase = .running then run_frame_generation fuel e (frame_generation_step e s)
    else s

/-- The template-size gate of `start_convert` (AfterScan.py lines
2104-2116): when `validate_template_size` fails, an error dialog is shown
and `ConvertLoopExitRequested` is set before the loop is scheduled, so
the first loop tick cancels the run. -/
def start_convert_template_gate (film_hole_template : Image)
    (holeSearchTopLeft holeSearchBottomRight : ℤ × ℤ) (bs : BatchState) : BatchState :=
  if validate_template_size film_hole_template holeSearchTopLeft holeSearchBottomRight then bs
  else { bs with convertLoopExitRequested := true }

/-- The `ffmpeg_state` enumeration of AfterScan.py line 177. -/
inductive FfmpegState
  | Pending
  | Running
  | Completed
  deriving DecidableEq, Repr

/-- The list of consecutive integers `a, a+1, ..., a+n-1`, i.e.
Python `range(a, a + n)`. -/
def intRange (a : ℤ) (n : ℕ) : List ℤ :=
  (List.range n).map (fun i : ℕ => a + (i : ℤ))

/-- Environment of the video-generation phase: the frame range and the
target-directory listing, with frame files represented by their absolute
frame numbers (the filename pattern is injective in the number). -/
structure VideoEnv where
  framesToEncode : ℤ
  startFrame : ℤ
  firstAbsoluteFrame : ℤ
  targetDirFileList : List ℤ

/-- Embedding of `valid_generated_frame_range` (AfterScan.py lines
1987-2003): count how many frame numbers of the requested range have
their file present in the target directory listing, and require the
count to equal the number of frames to encode. -/
def valid_generated_frame_range (e : VideoEnv) : Bool :=
  let file_count :=
    ((intRange (e.firstAbsoluteFrame + e.startFrame) e.framesToEncode.toNat).filter
      (fun i => e.targetDirFileList.contains i)).length
  (file_count : ℤ) == e.framesToEncode

/-- State of the encoder orchestration: the `ffmpeg_state` value, the
success flag, how many external encoder processes were spawned, whether
an output video file exists, the emitted status labels and the
batch-level globals. -/
structure VideoState where
  ffmpegStatus : FfmpegState
  ffmpegSuccess : Bool
  spawnCount : ℕ
  outputFileCreated : Bool
  statusLog : List StatusMsg
  batch : BatchState

/-- Embedding of the `ffmpeg_state.Pending` arm of
`video_generation_loop` (AfterScan.py lines 2319-2351): an empty frame
range or a failed `valid_generated_frame_range` check reports the
corresponding status and runs `generation_exit` without spawning;
otherwise the encoder process is spawned (which creates the output
file), the success flag is cleared and the state moves to `Running`. -/
def video_generation_pending_step (e : VideoEnv) (s : VideoState) : VideoState :=
  if e.framesToEncode == 0 then
    { s with statusLog := s.statusLog ++ [.noFramesToEncode],
             batch := generation_exit s.batch }
  else if !(valid_generated_frame_range e) then
    { s with statusLog := s.statusLog ++ [.framesMissing],
             batch := generation_exit s.batch }
  else
    { s with ffmpegSuccess := false, spawnCount := s.spawnCount + 1,
             outputFileCreated := true, ffmpegStatus := .Running }

/-! Concrete instances used by witnesses and counterexamples. -/

/-- All-black pixel field. -/
def zeroPix : ℕ → ℕ → ℕ := fun _ _ => 0

/-- A flat correlation surface: every position scores 0, so the first
scan position is the maximum. -/
def zeroCorr : Image → Image → ℕ → ℕ → ℚ := fun _ _ _ _ => 0

/-- A single-pixel image. -/
def img1x1 : Image := ⟨1, 1, zeroPix⟩

/-- A 2-by-2 image. -/
def img2x2 : Image := ⟨2, 2, zeroPix⟩

/-- A 3-by-5 image. -/
def img3x5 : Image := ⟨3, 5, zeroPix⟩

/-- A 4-by-4 image. -/
def img4x4 : Image := ⟨4, 4, zeroPix⟩

/-- A 10-by-10 image. -/
def img10x10 : Image := ⟨10, 10, zeroPix⟩

/-- A 100-by-100 image. -/
def img100x100 : Image := ⟨100, 100, zeroPix⟩

/-- A non-custom S8 template with a loaded 2-by-2 reference image and
raw position (1, 1). -/
def tmplS8 : Template :=
  ⟨"S8", "Pattern.S8.jpg", "S8", (1, 1), 1, (2, 2), (1, 1), (2, 2), some img2x2⟩

/-- A non-custom template whose backing file was missing: no image, and
the initial scale 1 with zero-valued derived fields. -/
def tmplMissing : Template :=
  ⟨"S8", "Pattern.S8.jpg", "S8", (1, 1), 1, (0, 0), (0, 0), (0, 0), none⟩

/-- A batch state with one pending job, running inside a batch with job
entry 0 selected and no exit requested. -/
def batchOneJob : BatchState := ⟨true, false, true, some 0, [⟨7, false⟩], false⟩

/-- A queue of three jobs where the second is pre-marked done. -/
def jobs3 : List Job := [⟨1, false⟩, ⟨2, true⟩, ⟨3, false⟩]

/-- Initial batch-runner state over `jobs3`. -/
def batch3 : BatchState := ⟨false, false, true, none, jobs3, false⟩

/-- Environment for the out-of-bounds stabilization witness: one
10-by-10 frame, stabilization and cropping enabled, default S8-style
expected position (12%, 38%), hole search stripe `(0,0)-(2,10)`, crop
rectangle `(0,0)-(10,10)` and an existing target directory. -/
def envC2 : GenEnv :=
  { startFrame := 0, framesToEncode := 1, firstAbsoluteFrame := 0
    sourceFrames := fun i => if i = 0 then some img10x10 else none
    targetDirExists := true
    performRotation := false, performStabilization := true
    performCropping := true, generateVideo := false
    cv2rotate := fun img => img.pixel, cv2match := zeroCorr
    customTemplateDefined := false, expectedPatternPos := (12, 38)
    holeSearchTopLeft := (0, 0), holeSearchBottomRight := (2, 10)
    filmHoleTemplate := img1x1, stabilizationThreshold := 0
    cropTopLeft := (0, 0), cropBottomRight := (10, 10) }

/-- Initial loop state for the stabilization witness. -/
def stateC2 : GenState := ⟨0, [], [], [], .running, batchOneJob⟩

/-- Environment for the odd-dimension run: two frames, the first 1-by-1
(whose `even_image` output keeps odd dimensions) and the second 4-by-4,
with no transform enabled other than the even-dimension normalization,
no video generation and an existing target directory. -/
def envC5 : GenEnv :=
  { startFrame := 0, framesToEncode := 2, firstAbsoluteFrame := 0
    sourceFrames := fun i => if i = 0 then some img1x1 else some img4x4
    targetDirExists := true
    performRotation := false, performStabilization := false
    performCropping := false, generateVideo := false
    cv2rotate := fun img => img.pixel, cv2match := zeroCorr
    customTemplateDefined := false, expectedPatternPos := (12, 38)
    holeSearchTopLeft := (0, 0), holeSearchBottomRight := (2, 10)
    filmHoleTemplate := img1x1, stabilizationThreshold := 0
    cropTopLeft := (0, 0), cropBottomRight := (10, 10) }

/-- Initial loop state for the odd-dimension run. -/
def stateC5 : GenState := ⟨0, [], [], [], .running, batchOneJob⟩

/-- Video environment whose requested frame range is empty. -/
def envC6 : VideoEnv := ⟨0, 0, 0, []⟩

/-- Video state still pending, with no process spawned and no output
file. -/
def stateC6 : VideoState := ⟨.Pending, false, 0, false, [], batchOneJob⟩

/-! Theorems.  The rational arithmetic primitives of Batteries are
marked irreducible for elaboration performance; inside this section we
let them unfold so that concrete witnesses evaluate by `decide`. -/

section Theorems

attribute [local semireducible] Rat.mul Rat.add Rat.sub Rat.inv

theorem Image.ext' (a b : Image) (hw : a.width = b.width)
    (hh : a.height = b.height) (hp : a.pixel = b.pixel) : a = b := by
  cases a; cases b; cases hw; cases hh; cases hp; rfl

theorem sliceIdx_natCast (n k : ℕ) (h : k ≤ n) : sliceIdx n (k : ℤ) = k := by
  unfold sliceIdx
  rw [if_neg (by omega)]
  omega

theorem sliceIdx_zero (n : ℕ) : sliceIdx n 0 = 0 := by
  unfold sliceIdx
  rw [if_neg (by omega)]
  omega

/-- Claim C1: for a frame stabilized with a custom template the shift is
the expected position minus the matched position, the matched position
being the `match_template` result on the left stripe translated by
`HoleSearchTopLeft` into frame-absolute coordinates; for a default
per-film-type template the shift is
round(expected% of the frame dimension) minus the matched position. -/
theorem stabilize_image_shift (cv2match : Image → Image → ℕ → ℕ → ℚ)
    (custom : Bool) (expected holeTL holeBR cropTL cropBR : ℤ × ℤ)
    (tmpl : Image) (thres : ℚ) (clr : Bool) (img : Image) :
    (stabilize_image cv2match custom expected holeTL holeBR cropTL cropBR
        tmpl thres clr img).matched =
      (((match_template cv2match tmpl (get_image_left_stripe img holeTL holeBR) thres).1 : ℤ)
          + holeTL.1,
       ((match_template cv2match tmpl (get_image_left_stripe img holeTL holeBR) thres).2 : ℤ)
          + holeTL.2) ∧
    (stabilize_image cv2match custom expected holeTL holeBR cropTL cropBR
        tmpl thres clr img).move_x =
      (if custom = true then
        expected.1 - (stabilize_image cv2match custom expected holeTL holeBR cropTL cropBR
          tmpl thres clr img).matched.1
      else
        pyRound ((expected.1 : ℚ) * (img.width : ℚ) / 100) -
          (stabilize_image cv2match custom expected holeTL holeBR cropTL cropBR
            tmpl thres clr img).matched.1) ∧
    (stabilize_image cv2match custom expected holeTL holeBR cropTL cropBR
        tmpl thres clr img).move_y =
      (if custom = true then
        expected.2 - (stabilize_image cv2match custom expected holeTL holeBR cropTL cropBR
          tmpl thres clr img).matched.2
      else
        pyRound ((expected.2 : ℚ) * (img.height : ℚ) / 100) -
          (stabilize_image cv2match custom expected holeTL holeBR cropTL cropBR
            tmpl thres clr img).matched.2) := by
  refine ⟨rfl, ?_, ?_⟩ <;> cases custom <;> rfl

/-- Claim C9: the film-type auto-detection heuristic is never applied
silently during a batch run — when `BatchJobRunning` is true the film
type and active template are left unchanged regardless of which pattern
matched higher up — and outside batch mode the detected change is
applied only when the confirmation dialog was shown and the user
confirmed. -/
theorem determine_hole_height_no_silent_switch
    (cv2match : Image → Image → ℕ → ℕ → ℚ) (filmType : String)
    (BatchJobRunning userConfirms : Bool) (bw wb : Image)
    (holeTL holeBR : ℤ × ℤ) (img : Image) :
    (determine_hole_height cv2match filmType BatchJobRunning userConfirms
        bw wb holeTL holeBR img).filmTypeChanged =
      (!BatchJobRunning && userConfirms &&
        (determine_hole_height cv2match filmType BatchJobRunning userConfirms
          bw wb holeTL holeBR img).promptShown) ∧
    (determine_hole_height cv2match filmType BatchJobRunning userConfirms
        bw wb holeTL holeBR img).filmType =
      (if (determine_hole_height cv2match filmType BatchJobRunning userConfirms
            bw wb holeTL holeBR img).filmTypeChanged = true then
        (if filmType = "R8" then "S8" else "R8")
      else filmType) := by
  cases hb : BatchJobRunning <;> cases hc : userConfirms <;>
    simp only [determine_hole_height] <;> split_ifs <;> simp_all

theorem even_image_dims (img : Image) (h : 2 ≤ img.width ∨ 2 ≤ img.height) :
    (even_image img).width = img.width - img.width % 2 ∧
    (even_image img).height = img.height - img.height % 2 ∧
    (even_image img).pixel = img.pixel := by
  obtain ⟨w, ht, p⟩ := img
  simp only at h
  have hbranch : (if w % 2 = 1 then w - 1 else w) ≠ 0 ∨ (if ht % 2 = 1 then ht - 1 else ht) ≠ 0 := by
    rcases h with h | h
    · left; split_ifs <;> omega
    · right; split_ifs <;> omega
  simp only [even_image, npSubImage]
  rw [if_pos hbranch]
  refine ⟨?_, ?_, ?_⟩
  · show sliceIdx w ((if w % 2 = 1 then w - 1 else w : ℕ) : ℤ) - sliceIdx w 0 = w - w % 2
    rw [sliceIdx_natCast w _ (by split_ifs <;> omega), sliceIdx_zero]
    split_ifs <;> omega
  · show sliceIdx ht ((if ht % 2 = 1 then ht - 1 else ht : ℕ) : ℤ) - sliceIdx ht 0 = ht - ht % 2
    rw [sliceIdx_natCast ht _ (by split_ifs <;> omega), sliceIdx_zero]
    split_ifs <;> omega
  · funext x y
    show p (x + sliceIdx w 0) (y + sliceIdx ht 0) = p x y
    rw [sliceIdx_zero, sliceIdx_zero, Nat.add_zero, Nat.add_zero]

theorem even_image_of_even_dims (img : Image) (hw : img.width % 2 = 0)
    (hh : img.height % 2 = 0) : even_image img = img := by
  obtain ⟨w, ht, p⟩ := img
  simp only at hw hh
  have hw' : ¬ (w % 2 = 1) := by omega
  have hh' : ¬ (ht % 2 = 1) := by omega
  simp only [even_image, if_neg hw', if_neg hh']
  by_cases h0 : w ≠ 0 ∨ ht ≠ 0
  · rw [if_pos h0]
    apply Image.ext'
    · show sliceIdx w (w : ℤ) - sliceIdx w 0 = w
      rw [sliceIdx_natCast w w le_rfl, sliceIdx_zero]
      omega
    · show sliceIdx ht (ht : ℤ) - sliceIdx ht 0 = ht
      rw [sliceIdx_natCast ht ht le_rfl, sliceIdx_zero]
      omega
    · funext x y
      show p (x + sliceIdx w 0) (y + sliceIdx ht 0) = p x y
      rw [sliceIdx_zero, sliceIdx_zero, Nat.add_zero, Nat.add_zero]
  · rw [if_neg h0]

theorem even_image_idem (img : Image) : even_image (even_image img) = even_image img := by
  by_cases h : 2 ≤ img.width ∨ 2 ≤ img.height
  · obtain ⟨hw, hh, -⟩ := even_image_dims img h
    exact even_image_of_even_dims _ (by omega) (by omega)
  · obtain ⟨w, ht, p⟩ := img
    simp only at h
    have hX : (if w % 2 = 1 then w - 1 else w) = 0 := by split_ifs <;> omega
    have hY : (if ht % 2 = 1 then ht - 1 else ht) = 0 := by split_ifs <;> omega
    have h1 : even_image ⟨w, ht, p⟩ = ⟨w, ht, p⟩ := by
      simp only [even_image]
      rw [if_neg (by rw [hX, hY]; simp)]
    rw [h1]
    exact h1

theorem crop_image_even_dims (img : Image) (tl br : ℤ × ℤ) (h : ValidRect img tl br) :
    (crop_image img tl br).width % 2 = 0 ∧ (crop_image img tl br).height % 2 = 0 := by
  obtain ⟨h1, h2, h3, h4, h5, h6⟩ := h
  simp only [crop_image, npSubImage, sliceIdx]
  constructor <;> (dsimp only; split_ifs <;> omega)

theorem crop_image_origin (img : Image) (br : ℤ × ℤ) (h1 : 0 ≤ br.1) (h2 : 0 ≤ br.2) :
    crop_image img (0, 0) br =
      ⟨(if (min br.1 (img.width : ℤ)) % 2 = 1 then min br.1 (img.width : ℤ) - 1
          else min br.1 (img.width : ℤ)).toNat,
       (if (min br.2 (img.height : ℤ)) % 2 = 1 then min br.2 (img.height : ℤ) - 1
          else min br.2 (img.height : ℤ)).toNat,
       img.pixel⟩ := by
  obtain ⟨w, ht, p⟩ := img
  apply Image.ext'
  · simp only [crop_image, npSubImage, sliceIdx]
    split_ifs <;> omega
  · simp only [crop_image, npSubImage, sliceIdx]
    split_ifs <;> omega
  · simp only [crop_image, npSubImage, sliceIdx]
    funext x y
    norm_num

theorem crop_image_origin_idem (img : Image) (br : ℤ × ℤ)
    (h1 : 0 ≤ br.1) (h2 : 0 ≤ br.2) :
    crop_image (crop_image img (0, 0) br) (0, 0) br = crop_image img (0, 0) br := by
  rw [crop_image_origin img br h1 h2, crop_image_origin _ br h1 h2]
  apply Image.ext'
  · dsimp only
    split_ifs <;> omega
  · dsimp only
    split_ifs <;> omega
  · rfl

/-- Claim C4 (amended): for valid crop rectangles `crop_image` output has
even width and height; `even_image` output has even width and height for
every input with a dimension of at least 2 (a degenerate input with both
dimensions at most 1 is returned unchanged, so a 1-by-1 frame keeps odd
dimensions); `even_image` is idempotent on every input; and `crop_image`
is idempotent when the rectangle's top-left corner is the origin (but
not for a general rectangle, whose offset is re-applied to the already
cropped frame). -/
theorem crop_even_normalization (img : Image) (tl br : ℤ × ℤ) (h : ValidRect img tl br)
    (img2 : Image) (h2 : 2 ≤ img2.width ∨ 2 ≤ img2.height)
    (img3 : Image) (br3 : ℤ × ℤ) (h3 : 0 ≤ br3.1) (h4 : 0 ≤ br3.2) :
    (crop_image img tl br).width % 2 = 0 ∧ (crop_image img tl br).height % 2 = 0 ∧
    (even_image img2).width % 2 = 0 ∧ (even_image img2).height % 2 = 0 ∧
    even_image (even_image img3) = even_image img3 ∧
    crop_image (crop_image img3 (0, 0) br3) (0, 0) br3 = crop_image img3 (0, 0) br3 := by
  obtain ⟨hcw, hch⟩ := crop_image_even_dims img tl br h
  obtain ⟨hew, heh, -⟩ := even_image_dims img2 h2
  exact ⟨hcw, hch, by omega, by omega, even_image_idem img3,
    crop_image_origin_idem img3 br3 h3 h4⟩

/-- Witness for C4 at concrete inputs: a 4-by-4 image with the full-frame
rectangle and a 3-by-5 image. -/
theorem crop_even_normalization_witness :
    ValidRect img4x4 (0, 0) (4, 4) ∧ (2 ≤ img3x5.width ∨ 2 ≤ img3x5.height) ∧
    ((crop_image img4x4 (0, 0) (4, 4)).width % 2 = 0 ∧
     (crop_image img4x4 (0, 0) (4, 4)).height % 2 = 0 ∧
     (even_image img3x5).width % 2 = 0 ∧ (even_image img3x5).height % 2 = 0 ∧
     even_image (even_image img3x5) = even_image img3x5 ∧
     crop_image (crop_image img3x5 (0, 0) (4, 4)) (0, 0) (4, 4) =
       crop_image img3x5 (0, 0) (4, 4)) :=
  ⟨by decide, by decide,
    crop_even_normalization img4x4 (0, 0) (4, 4) (by decide)
      img3x5 (by decide) img3x5 (4, 4) (by decide) (by decide)⟩

/-- Counterexample for C4 as stated: `even_image` of a 1-by-1 frame
keeps an odd width, and `crop_image` with rectangle `(10,10)-(50,50)` on
a 100-by-100 frame is not idempotent (the second application crops
again, shrinking the width from 40 to 30). -/
theorem crop_even_normalization_counterexample :
    (even_image img1x1).width % 2 = 1 ∧
    (crop_image (crop_image img100x100 (10, 10) (50, 50)) (10, 10) (50, 50)).width ≠
      (crop_image img100x100 (10, 10) (50, 50)).width := by
  constructor <;> decide

/-- Claim C10 (amended): for every non-empty input other than a 1-by-1
frame, `even_image` returns the top-left-anchored sub-image: the output
width is the input width minus its parity, the output height is the
input height minus its parity, and the pixel field is the unchanged
input pixel field read at the same coordinates, so no pixel is
resampled or shifted (the embedding is pure, so the input image is not
mutated).  A 1-by-1 input is returned unchanged. -/
theorem even_image_frame_effect (img : Image) (h1 : 1 ≤ img.width)
    (h2 : 1 ≤ img.height) (h3 : ¬(img.width = 1 ∧ img.height = 1)) :
    (even_image img).width = img.width - img.width % 2 ∧
    (even_image img).height = img.height - img.height % 2 ∧
    (even_image img).pixel = img.pixel := by
  exact even_image_dims img (by omega)

/-- Witness for C10 at a 3-by-5 image. -/
theorem even_image_frame_effect_witness :
    1 ≤ img3x5.width ∧ 1 ≤ img3x5.height ∧ ¬(img3x5.width = 1 ∧ img3x5.height = 1) ∧
    ((even_image img3x5).width = img3x5.width - img3x5.width % 2 ∧
     (even_image img3x5).height = img3x5.height - img3x5.height % 2 ∧
     (even_image img3x5).pixel = img3x5.pixel) :=
  ⟨by decide, by decide, by decide,
    even_image_frame_effect img3x5 (by decide) (by decide) (by decide)⟩

/-- Counterexample for C10 as stated: on the non-empty 1-by-1 input the
output width is 1, not `1 - 1 % 2 = 0` — the frame is returned unchanged
with odd dimensions. -/
theorem even_image_frame_effect_counterexample :
    (even_image img1x1).width ≠ img1x1.width - img1x1.width % 2 := by
  decide

/-- Claim C3 (amended): after any call to `refresh(width)` in which the
template image is available (already loaded, or successfully reloaded),
the scale is `width / 2028` for a non-custom template and `1.0` for a
custom one, and the derived fields are recomputed together from that
same new scale — with Python `int()` truncation, not rounding:
`scaled_position = int(position * scale)` and
`scaled_size = int(size * scale)`.  When the image is unavailable the
method returns without updating any field. -/
theorem template_refresh_scale (t : Template) (width : ℤ) (reload : Option Image)
    (img : Image) (h : t.template = some img ∨ (t.template = none ∧ reload = some img)) :
    (t.refresh width reload).scale =
      (if t.type = "custom" then (1 : ℚ) else (width : ℚ) / 2028) ∧
    (t.refresh width reload).scaled_position =
      (pyInt ((t.position.1 : ℚ) * (t.refresh width reload).scale),
       pyInt ((t.position.2 : ℚ) * (t.refresh width reload).scale)) ∧
    (t.refresh width reload).size = ((img.width : ℤ), (img.height : ℤ)) ∧
    (t.refresh width reload).scaled_size =
      (pyInt ((img.width : ℚ) * (t.refresh width reload).scale),
       pyInt ((img.height : ℚ) * (t.refresh width reload).scale)) := by
  rcases h with h | ⟨h1, h2⟩
  · simp [Template.refresh, Template.applyScale, h]
  · simp [Template.refresh, Template.applyScale, h1, h2]

/-- Witness for C3: refreshing the loaded S8 template for working width
3042 yields scale 3/2 and truncated scaled position (1, 1). -/
theorem template_refresh_scale_witness :
    tmplS8.template = some img2x2 ∧
    (tmplS8.refresh 3042 none).scale = (3042 : ℚ) / 2028 ∧
    (tmplS8.refresh 3042 none).scaled_position = (1, 1) := by
  have h := template_refresh_scale tmplS8 3042 none img2x2 (Or.inl rfl)
  refine ⟨rfl, ?_, ?_⟩
  · rw [h.1]; decide
  · rw [h.2.1, h.1]; decide

/-- Counterexample for C3 as stated: at width 3042 the scale is exactly
3/2, and the code truncates `int(1 * 1.5) = 1` where the claim's
`round(1 * 1.5) = 2`; moreover a refresh whose reload fails updates
nothing, leaving the scale different from `width / 2028`. -/
theorem template_refresh_scale_counterexample :
    (tmplS8.refresh 3042 none).scaled_position.1 ≠
      pyRound ((tmplS8.position.1 : ℚ) * (tmplS8.refresh 3042 none).scale) ∧
    (tmplMissing.refresh 100 none).scale ≠ (100 : ℚ) / 2028 := by
  constructor <;> decide

/-- Claim C8 (amended): when the template is at least as large as the
search region in either dimension, `match_template` returns the sentinel
`(0, 0)` and, being a total function, raises no exception;
`validate_template_size` checks exactly the same size condition, and
when it fails `start_convert` sets the exit-request flag before the loop
is scheduled, so the run writes no frame.  The sentinel `(0, 0)` is not
a distinguishable NoMatch marker: a successful match can also return
`(0, 0)`, as the final conjunct exhibits. -/
theorem match_template_size_failure (cv2match : Image → Image → ℕ → ℕ → ℚ)
    (template img : Image) (thres : ℚ)
    (h : img.width ≤ template.width ∨ img.height ≤ template.height) :
    match_template cv2match template img thres = (0, 0) ∧
    (∀ (tmpl : Image) (hTL hBR : ℤ × ℤ),
      validate_template_size tmpl hTL hBR = true ↔
        ((tmpl.width : ℤ) < hBR.1 - hTL.1 ∧ (tmpl.height : ℤ) < hBR.2 - hTL.2)) ∧
    (∀ (tmpl : Image) (hTL hBR : ℤ × ℤ) (bs : BatchState),
      validate_template_size tmpl hTL hBR = false →
        (start_convert_template_gate tmpl hTL hBR bs).convertLoopExitRequested = true) ∧
    (∀ (e : GenEnv) (s : GenState), s.batch.convertLoopExitRequested = true →
      (frame_generation_step e s).written = s.written) ∧
    (∃ (cv2m : Image → Image → ℕ → ℕ → ℚ) (t i : Image) (th : ℚ),
      t.width < i.width ∧ t.height < i.height ∧
        match_template cv2m t i th = (0, 0)) := by
  refine ⟨?_, ?_, ?_, ?_, ?_⟩
  · simp only [match_template]
    rw [if_pos h]
  · intro tmpl hTL hBR
    simp only [validate_template_size]
    split_ifs with hc
    · simp only [Bool.false_eq_true, false_iff]
      intro hlt
      rcases hc with hc | hc <;> omega
    · simp only [true_iff]
      push_neg at hc
      omega
  · intro tmpl hTL hBR bs hfail
    simp [start_convert_template_gate, hfail]
  · intro e s hx
    simp only [frame_generation_step, hx]
    split_ifs <;> rfl
  · exact ⟨zeroCorr, img1x1, img2x2, 0, by decide, by decide, by decide⟩

/-- Witness for C8: a 2-by-2 template over a 1-by-1 search region
returns the sentinel. -/
theorem match_template_size_failure_witness :
    img1x1.width ≤ img2x2.width ∧
    match_template zeroCorr img2x2 img1x1 0 = (0, 0) :=
  ⟨by decide,
    (match_template_size_failure zeroCorr img2x2 img1x1 0 (Or.inl (by decide))).1⟩

/-- Counterexample for C8 as stated: there is no marker value that is
returned on every oversized-template failure yet never returned by a
successful match — the failure sentinel `(0, 0)` is also the result of a
legitimate match at the origin. -/
theorem match_template_size_failure_counterexample :
    ¬ ∃ marker : ℕ × ℕ,
      (∀ (cv2m : Image → Image → ℕ → ℕ → ℚ) (t i : Image) (th : ℚ),
        i.width ≤ t.width ∨ i.height ≤ t.height →
          match_template cv2m t i th = marker) ∧
      (∀ (cv2m : Image → Image → ℕ → ℕ → ℚ) (t i : Image) (th : ℚ),
        t.width < i.width → t.height < i.height →
          match_template cv2m t i th ≠ marker) := by
  rintro ⟨marker, hfail, hsucc⟩
  have h1 : match_template zeroCorr img2x2 img1x1 0 = marker :=
    hfail zeroCorr img2x2 img1x1 0 (Or.inl (by decide))
  have h2 : match_template zeroCorr img1x1 img2x2 0 ≠ marker :=
    hsucc zeroCorr img1x1 img2x2 0 (by decide) (by decide)
  have e1 : match_template zeroCorr img2x2 img1x1 0 = (0, 0) := by decide
  have e2 : match_template zeroCorr img1x1 img2x2 0 = (0, 0) := by decide
  have hm : marker = (0, 0) := h1.symm.trans e1
  exact h2 (e2.trans hm.symm)

theorem generation_exit_not_running (bs : BatchState) :
    (generation_exit bs).convertLoopRunning = false := by
  simp only [generation_exit]
  split_ifs
  all_goals try rfl
  all_goals cases bs.currentJobEntry <;> rfl

theorem generation_exit_continues_batch (bs : BatchState) (i : ℕ)
    (hb : bs.batchJobRunning = true) (hx : bs.convertLoopExitRequested = false)
    (he : bs.currentJobEntry = some i) :
    (generation_exit bs).batchJobRunning = true ∧
    (generation_exit bs).scheduledJobLoop = true ∧
    (generation_exit bs).jobs = setDone bs.jobs i ∧
    (generation_exit bs).convertLoopExitRequested = false := by
  simp [generation_exit, hb, hx, he]

theorem valid_generated_frame_range_iff (e : VideoEnv) (hn : 0 ≤ e.framesToEncode) :
    valid_generated_frame_range e = true ↔
      ∀ i ∈ intRange (e.firstAbsoluteFrame + e.startFrame) e.framesToEncode.toNat,
        e.targetDirFileList.contains i = true := by
  simp only [valid_generated_frame_range, beq_iff_eq]
  set l := intRange (e.firstAbsoluteFrame + e.startFrame) e.framesToEncode.toNat with hl
  set p : ℤ → Bool := fun i => e.targetDirFileList.contains i with hp
  have hlen : l.length = e.framesToEncode.toNat := by
    rw [hl]
    unfold intRange
    rw [List.length_map]
    exact List.length_range _
  have hle : (l.filter p).length ≤ l.length := List.length_filter_le p l
  constructor
  · intro hcount
    have h2 : (l.filter p).length = l.length := by omega
    exact (List.filter_length_eq_length).mp h2
  · intro hall
    have h2 : (l.filter p).length = l.length := (List.filter_length_eq_length).mpr hall
    omega

/-- Claim C6 (amended): before spawning the encoder the two
preconditions are enforced — a non-empty frame range, and every expected
numbered output frame file present in the target directory (which is
exactly what `valid_generated_frame_range` checks) — and when either is
violated the failure is reported as a status message, the run is
terminated via `generation_exit` without spawning the encoder (the
process-spawn count is unchanged) and without creating any output file;
the encoding state however remains `Pending`: the code never sets it to
`Completed` on this path. -/
theorem video_generation_preconditions (e : VideoEnv) (s : VideoState)
    (h : e.framesToEncode = 0 ∨ valid_generated_frame_range e = false) :
    (video_generation_pending_step e s).spawnCount = s.spawnCount ∧
    (video_generation_pending_step e s).outputFileCreated = s.outputFileCreated ∧
    (video_generation_pending_step e s).ffmpegStatus = s.ffmpegStatus ∧
    (video_generation_pending_step e s).batch.convertLoopRunning = false ∧
    ((video_generation_pending_step e s).statusLog = s.statusLog ++ [.noFramesToEncode] ∨
     (video_generation_pending_step e s).statusLog = s.statusLog ++ [.framesMissing]) ∧
    (0 ≤ e.framesToEncode →
      (valid_generated_frame_range e = true ↔
        ∀ i ∈ intRange (e.firstAbsoluteFrame + e.startFrame) e.framesToEncode.toNat,
          e.targetDirFileList.contains i = true)) := by
  by_cases h0 : e.framesToEncode = 0
  · unfold video_generation_pending_step
    rw [if_pos (by simp [h0])]
    refine ⟨rfl, rfl, rfl, generation_exit_not_running s.batch, Or.inl rfl,
      fun hn => valid_generated_frame_range_iff e hn⟩
  · have hv : valid_generated_frame_range e = false := by
      rcases h with h | h
      · exact absurd h h0
      · exact h
    unfold video_generation_pending_step
    rw [if_neg (by simp [h0]), if_pos (by simp [hv])]
    refine ⟨rfl, rfl, rfl, generation_exit_not_running s.batch, Or.inr rfl,
      fun hn => valid_generated_frame_range_iff e hn⟩

/-- Witness for C6: with an empty frame range the pending step leaves
the spawn count at zero, creates no output file, stays `Pending`, and
reports the empty-range failure. -/
theorem video_generation_preconditions_witness :
    envC6.framesToEncode = 0 ∧
    (video_generation_pending_step envC6 stateC6).spawnCount = 0 ∧
    (video_generation_pending_step envC6 stateC6).outputFileCreated = false ∧
    (video_generation_pending_step envC6 stateC6).ffmpegStatus = FfmpegState.Pending ∧
    ((video_generation_pending_step envC6 stateC6).statusLog = [StatusMsg.noFramesToEncode] ∨
     (video_generation_pending_step envC6 stateC6).statusLog = [StatusMsg.framesMissing]) := by
  have h := video_generation_preconditions envC6 stateC6 (Or.inl rfl)
  exact ⟨rfl, h.1, h.2.1, h.2.2.1, h.2.2.2.2.1⟩

/-- Counterexample for C6 as stated: on the empty-range violation the
orchestrator does not transition to `Completed(failure)` — the concrete
`ffmpeg_state` variable remains `Pending`. -/
theorem video_generation_preconditions_counterexample :
    (video_generation_pending_step envC6 stateC6).ffmpegStatus = FfmpegState.Pending ∧
    FfmpegState.Pending ≠ FfmpegState.Completed := by
  constructor <;> decide

theorem findFirstNotDone_none_pending (jobs : List Job)
    (h : findFirstNotDone jobs = none) : pendingIndices jobs = [] := by
  induction jobs with
  | nil => rfl
  | cons j rest ih =>
    simp only [findFirstNotDone] at h
    simp only [pendingIndices]
    split_ifs with hd
    · rw [if_pos hd] at h
      rw [ih (Option.map_eq_none'.mp h)]
      rfl
    · rw [if_neg hd] at h
      exact absurd h (by simp)

theorem findFirstNotDone_none_all_done (jobs : List Job)
    (h : findFirstNotDone jobs = none) : ∀ j ∈ jobs, j.done = true := by
  induction jobs with
  | nil => intro j hj; exact absurd hj (by simp)
  | cons j rest ih =>
    simp only [findFirstNotDone] at h
    intro k hk
    by_cases hd : j.done = true
    · rw [if_pos hd] at h
      rcases List.mem_cons.mp hk with hk | hk
      · rw [hk]; exact hd
      · exact ih (Option.map_eq_none'.mp h) k hk
    · rw [if_neg hd] at h
      exact absurd h (by simp)

theorem findFirstNotDone_some_pending (jobs : List Job) (i : ℕ)
    (h : findFirstNotDone jobs = some i) :
    pendingIndices jobs = i :: pendingIndices (setDone jobs i) := by
  induction jobs generalizing i with
  | nil => exact absurd h (by simp [findFirstNotDone])
  | cons j rest ih =>
    simp only [findFirstNotDone] at h
    by_cases hd : j.done
    · rw [if_pos hd] at h
      obtain ⟨i', hi', rfl⟩ := Option.map_eq_some'.mp h
      simp only [pendingIndices, if_pos hd, setDone]
      rw [ih i' hi']
      rfl
    · rw [if_neg hd] at h
      obtain rfl : (0 : ℕ) = i := by simpa using h
      simp [pendingIndices, if_neg hd, setDone]

theorem setDone_map_payload (jobs : List Job) (i : ℕ) :
    (setDone jobs i).map Job.payload = jobs.map Job.payload := by
  induction jobs generalizing i with
  | nil => rfl
  | cons j rest ih =>
    cases i with
    | zero => rfl
    | succ n => simp [setDone, ih]

/-- Claim C7: the job queue runner scans entries in insertion order,
skips every entry already marked done, marks each completed job done
before rescanning for the next not-done job, and — given fuel for the
whole queue and a batch with no exit requested — processes exactly the
not-done jobs, in order, leaving every job's payload untouched and every
job marked done at the end. -/
theorem job_processing_loop_order (fuel : ℕ) (bs : BatchState) (log : List ℕ)
    (hb : bs.batchJobRunning = true) (hx : bs.convertLoopExitRequested = false)
    (hf : (pendingIndices bs.jobs).length < fuel) :
    (job_processing_loop fuel bs log).2 = log ++ pendingIndices bs.jobs ∧
    (job_processing_loop fuel bs log).1.jobs.map Job.payload = bs.jobs.map Job.payload ∧
    (∀ j ∈ (job_processing_loop fuel bs log).1.jobs, j.done = true) := by
  induction fuel generalizing bs log with
  | zero => omega
  | succ fuel ih =>
    simp only [job_processing_loop]
    cases hfind : findFirstNotDone bs.jobs with
    | none =>
      have hpend := findFirstNotDone_none_pending bs.jobs hfind
      have hdone := findFirstNotDone_none_all_done bs.jobs hfind
      have hjobs : (generation_exit { bs with currentJobEntry := none }).jobs = bs.jobs := by
        simp only [generation_exit]
        split_ifs <;> rfl
      refine ⟨by simp [hpend], by simp [hjobs], ?_⟩
      rw [hjobs]
      exact hdone
    | some i =>
      have hpend := findFirstNotDone_some_pending bs.jobs i hfind
      have hcont := generation_exit_continues_batch
        { bs with currentJobEntry := some i, convertLoopRunning := true } i hb hx rfl
      set bs' := generation_exit { bs with currentJobEntry := some i, convertLoopRunning := true }
      have hjobs' : bs'.jobs = setDone bs.jobs i := hcont.2.2.1
      have hlen : (pendingIndices bs'.jobs).length < fuel := by
        rw [hjobs']
        have : (pendingIndices bs.jobs).length =
            (pendingIndices (setDone bs.jobs i)).length + 1 := by
          rw [hpend]; rfl
        omega
      obtain ⟨hlog, hpay, hall⟩ := ih bs' (log ++ [i]) hcont.1 hcont.2.2.2 hlen
      refine ⟨?_, ?_, hall⟩
      · rw [hlog, hjobs', hpend]
        simp
      · rw [hpay, hjobs', setDone_map_payload]

theorem frame_generation_step_terminal (e : GenEnv) (s : GenState)
    (h : e.startFrame + e.framesToEncode ≤ s.currentFrame)
    (hv : e.generateVideo = false) :
    frame_generation_step e s =
      { s with
        currentFrame := s.currentFrame - 1
        statusLog := s.statusLog ++ [.frameGenerationOK]
        phase := .exited
        batch := generation_exit s.batch } := by
  simp only [frame_generation_step]
  rw [if_pos h]
  simp [hv]

theorem frame_generation_step_processing (e : GenEnv) (s : GenState) (img0 : Image)
    (hrange : s.currentFrame < e.startFrame + e.framesToEncode)
    (hexit : s.batch.convertLoopExitRequested = false)
    (hread : e.sourceFrames s.currentFrame = some img0) :
    frame_generation_step e s =
      { s with
        currentFrame :=
          (if (process_frame e img0).1.width % 2 = 1 ∨ (process_frame e img0).1.height % 2 = 1
            then e.startFrame + e.framesToEncode - 1 else s.currentFrame) + 1
        statusLog :=
          (if (process_frame e img0).1.width % 2 = 1 ∨ (process_frame e img0).1.height % 2 = 1
            then s.statusLog ++ [.oddSize s.currentFrame] else s.statusLog) ++
          [.generatingFrames
            (if (process_frame e img0).1.width % 2 = 1 ∨ (process_frame e img0).1.height % 2 = 1
              then e.startFrame + e.framesToEncode - 1 else s.currentFrame)]
        written :=
          if e.targetDirExists then
            s.written ++ [e.firstAbsoluteFrame +
              (if (process_frame e img0).1.width % 2 = 1 ∨ (process_frame e img0).1.height % 2 = 1
                then e.startFrame + e.framesToEncode - 1 else s.currentFrame)]
          else s.written
        alerts :=
          match (process_frame e img0).2 with
          | some r => if r.alertLogged then s.alerts ++ [s.currentFrame] else s.alerts
          | none => s.alerts } := by
  simp only [frame_generation_step]
  rw [if_neg (by omega), if_neg (by simp [hexit]), hread]

/-- Claim C2: for every frame stabilized inside the generation loop the
overflow estimates satisfy
`missing_bottom = frameHeight - cropBottom + move_y` and
`missing_top = cropTop - move_y`; whenever either is negative the
condition is surfaced as a logged FrameAlignTag-2 alignment event (the
convert loop is running, so the alert fires), and the frame is still
written to the target directory. -/
theorem stabilize_overflow_surfaced (e : GenEnv) (s : GenState) (img0 imgR : Image)
    (r : StabilizeResult)
    (hrot : imgR = (if e.performRotation then rotate_image e img0 else img0))
    (hr : r = stabilize_image e.cv2match e.customTemplateDefined e.expectedPatternPos
      e.holeSearchTopLeft e.holeSearchBottomRight e.cropTopLeft e.cropBottomRight
      e.filmHoleTemplate e.stabilizationThreshold true imgR)
    (hrange : s.currentFrame < e.startFrame + e.framesToEncode)
    (hexit : s.batch.convertLoopExitRequested = false)
    (hread : e.sourceFrames s.currentFrame = some img0)
    (hstab : e.performStabilization = true)
    (htarget : e.targetDirExists = true)
    (heven : ¬((process_frame e img0).1.width % 2 = 1 ∨
      (process_frame e img0).1.height % 2 = 1)) :
    r.missing_bottom = (imgR.height : ℤ) - e.cropBottomRight.2 + r.move_y ∧
    r.missing_top = e.cropTopLeft.2 - r.move_y ∧
    ((r.missing_bottom < 0 ∨ r.missing_top < 0) →
      r.alertLogged = true ∧
      (frame_generation_step e s).alerts = s.alerts ++ [s.currentFrame] ∧
      (e.firstAbsoluteFrame + s.currentFrame) ∈ (frame_generation_step e s).written) := by
  subst hrot
  subst hr
  refine ⟨rfl, rfl, ?_⟩
  intro halert
  have hA0 : (stabilize_image e.cv2match e.customTemplateDefined e.expectedPatternPos
      e.holeSearchTopLeft e.holeSearchBottomRight e.cropTopLeft e.cropBottomRight
      e.filmHoleTemplate e.stabilizationThreshold true
      (if e.performRotation then rotate_image e img0 else img0)).alertLogged =
      (true &&
        (decide ((stabilize_image e.cv2match e.customTemplateDefined e.expectedPatternPos
          e.holeSearchTopLeft e.holeSearchBottomRight e.cropTopLeft e.cropBottomRight
          e.filmHoleTemplate e.stabilizationThreshold true
          (if e.performRotation then rotate_image e img0 else img0)).missing_bottom < 0) ||
         decide ((stabilize_image e.cv2match e.customTemplateDefined e.expectedPatternPos
          e.holeSearchTopLeft e.holeSearchBottomRight e.cropTopLeft e.cropBottomRight
          e.filmHoleTemplate e.stabilizationThreshold true
          (if e.performRotation then rotate_image e img0 else img0)).missing_top < 0))) := rfl
  have hA : (stabilize_image e.cv2match e.customTemplateDefined e.expectedPatternPos
      e.holeSearchTopLeft e.holeSearchBottomRight e.cropTopLeft e.cropBottomRight
      e.filmHoleTemplate e.stabilizationThreshold true
      (if e.performRotation then rotate_image e img0 else img0)).alertLogged = true := by
    rw [hA0]
    rcases halert with h | h <;> simp [h]
  have hpr2 : (process_frame e img0).2 =
      some (stabilize_image e.cv2match e.customTemplateDefined e.expectedPatternPos
        e.holeSearchTopLeft e.holeSearchBottomRight e.cropTopLeft e.cropBottomRight
        e.filmHoleTemplate e.stabilizationThreshold true
        (if e.performRotation then rotate_image e img0 else img0)) := by
    simp [process_frame, hstab]
  rw [frame_generation_step_processing e s img0 hrange hexit hread]
  refine ⟨hA, ?_, ?_⟩
  · simp only [hpr2, hA, if_pos]
  · rw [if_pos htarget, if_neg heven]
    simp

/-- Witness for C2: in the concrete environment the default-template
shift is `round(38% of 10) = 4`, the crop top is 0, so
`missing_top = -4` is negative; the alert is logged for frame 0 and the
frame is still written. -/
theorem stabilize_overflow_surfaced_witness :
    (frame_generation_step envC2 stateC2).alerts = [(0 : ℤ)] ∧
    ((0 : ℤ) ∈ (frame_generation_step envC2 stateC2).written) := by
  have h := stabilize_overflow_surfaced envC2 stateC2 img10x10
    (if envC2.performRotation then rotate_image envC2 img10x10 else img10x10)
    (stabilize_image envC2.cv2match envC2.customTemplateDefined envC2.expectedPatternPos
      envC2.holeSearchTopLeft envC2.holeSearchBottomRight envC2.cropTopLeft
      envC2.cropBottomRight envC2.filmHoleTemplate envC2.stabilizationThreshold true
      (if envC2.performRotation then rotate_image envC2 img10x10 else img10x10))
    rfl rfl (by decide) rfl rfl rfl rfl (by decide)
  have h3 := h.2.2 (by decide)
  exact ⟨h3.2.1, by simpa using h3.2.2⟩

/-- Claim C5 (amended): when a frame's output dimensions are odd after
all transforms, the controller reports an odd-size error status for that
frame and clamps the frame counter to the last index of the range, so
the loop terminates at the next tick and no later frame is processed —
but the run then ends through the normal completion branch, reporting
the frame-generation-OK status (the same terminal status as a fully
successful run, not a Failed report), and in batch mode the job is
marked done and the next job-queue pass is scheduled, so the job queue
is not aborted. -/
theorem frame_generation_odd_dimension (e : GenEnv) (s s1 s2 : GenState)
    (img0 : Image) (i : ℕ)
    (h1 : s1 = frame_generation_step e s) (h2 : s2 = frame_generation_step e s1)
    (hrange2 : s.currentFrame < e.startFrame + e.framesToEncode)
    (hexit : s.batch.convertLoopExitRequested = false)
    (hread : e.sourceFrames s.currentFrame = some img0)
    (hodd : (process_frame e img0).1.width % 2 = 1 ∨
      (process_frame e img0).1.height % 2 = 1)
    (hvideo : e.generateVideo = false)
    (hbatch : s.batch.batchJobRunning = true)
    (hentry : s.batch.currentJobEntry = some i) :
    s1.currentFrame = e.startFrame + e.framesToEncode ∧
    s1.statusLog = s.statusLog ++ [StatusMsg.oddSize s.currentFrame,
      StatusMsg.generatingFrames (e.startFrame + e.framesToEncode - 1)] ∧
    s2.phase = GenPhase.exited ∧
    s2.statusLog = s1.statusLog ++ [StatusMsg.frameGenerationOK] ∧
    s2.written = s1.written ∧
    (∀ fuel, run_frame_generation fuel e s2 = s2) ∧
    s2.batch.batchJobRunning = true ∧
    s2.batch.scheduledJobLoop = true ∧
    s2.batch.jobs = setDone s.batch.jobs i := by
  rw [frame_generation_step_processing e s img0 hrange2 hexit hread] at h1
  simp only [if_pos hodd] at h1
  have hcf1 : s1.currentFrame = e.startFrame + e.framesToEncode := by
    rw [h1]; dsimp only; omega
  have hlog1 : s1.statusLog = s.statusLog ++ [StatusMsg.oddSize s.currentFrame,
      StatusMsg.generatingFrames (e.startFrame + e.framesToEncode - 1)] := by
    rw [h1]; dsimp only; simp
  have hbatch1 : s1.batch = s.batch := by rw [h1]
  rw [frame_generation_step_terminal e s1 (by omega) hvideo] at h2
  have hcont := generation_exit_continues_batch s.batch i hbatch hexit hentry
  refine ⟨hcf1, hlog1, by rw [h2], by rw [h2], by rw [h2], ?_, ?_, ?_, ?_⟩
  · intro fuel
    cases fuel with
    | zero => rfl
    | succ fuel =>
      have hph : s2.phase = GenPhase.exited := by rw [h2]
      simp [run_frame_generation, hph]
  · rw [h2]
    show (generation_exit s1.batch).batchJobRunning = true
    rw [hbatch1]
    exact hcont.1
  · rw [h2]
    show (generation_exit s1.batch).scheduledJobLoop = true
    rw [hbatch1]
    exact hcont.2.1
  · rw [h2]
    show (generation_exit s1.batch).jobs = setDone s.batch.jobs i
    rw [hbatch1]
    exact hcont.2.2.1

/-- Witness for C5: the two-frame run whose first frame stays 1-by-1
after the transforms — the counter is clamped past frame 1, the odd-size
status is followed by the OK status, and the single queued job is marked
done. -/
theorem frame_generation_odd_dimension_witness :
    (frame_generation_step envC5 stateC5).currentFrame = 2 ∧
    (frame_generation_step envC5 (frame_generation_step envC5 stateC5)).phase =
      GenPhase.exited ∧
    (frame_generation_step envC5 (frame_generation_step envC5 stateC5)).batch.jobs =
      setDone stateC5.batch.jobs 0 := by
  have h := frame_generation_odd_dimension envC5 stateC5
    (frame_generation_step envC5 stateC5)
    (frame_generation_step envC5 (frame_generation_step envC5 stateC5))
    img1x1 0 rfl rfl (by decide) rfl rfl (by decide) rfl rfl rfl
  exact ⟨h.1, h.2.2.1, h.2.2.2.2.2.2.2.2⟩

/-- Counterexample for C5 as stated: running the odd-dimension scenario
to completion, the terminal status the run reports is the normal
frame-generation-OK message — the run is reported as a success, not as
Failed — and the job is marked done rather than failed. -/
theorem frame_generation_odd_dimension_counterexample :
    (run_frame_generation 3 envC5 stateC5).statusLog =
      [StatusMsg.oddSize 0, StatusMsg.generatingFrames 1,
        StatusMsg.frameGenerationOK] ∧
    (run_frame_generation 3 envC5 stateC5).written = [(1 : ℤ)] ∧
    (run_frame_generation 3 envC5 stateC5).batch.jobs = [⟨7, true⟩] := by
  refine ⟨?_, ?_, ?_⟩ <;> decide

/-- Witness for C7: a queue of three jobs where job 2 (index 1) is
pre-marked done is processed in the order job 1, job 3 (indices 0 and
2), every payload is untouched, and all jobs end marked done. -/
theorem job_processing_loop_order_witness :
    batch3.batchJobRunning = true ∧ batch3.convertLoopExitRequested = false ∧
    (pendingIndices batch3.jobs).length < 3 ∧
    pendingIndices batch3.jobs = [0, 2] ∧
    ((job_processing_loop 3 batch3 []).2 = [] ++ pendingIndices batch3.jobs ∧
     (job_processing_loop 3 batch3 []).1.jobs.map Job.payload = batch3.jobs.map Job.payload ∧
     (∀ j ∈ (job_processing_loop 3 batch3 []).1.jobs, j.done = true)) :=
  ⟨rfl, rfl, by decide, by decide,
    job_processing_loop_order 3 batch3 [] rfl rfl (by decide)⟩

end Theorems

end AfterScan
